import Mathlib

/-!
Shallow embedding of the Todo task service (FastAPI + SQLAlchemy backend:
`main.py`, `models.py`, `schemas.py`).

The relational store is modelled as a list of rows (`DB`); timestamps are
naturals supplied by the caller as `now` (the code uses `func.now()`);
HTTP errors (`HTTPException`) are modelled as `Except ApiError`, and an
operation that raises before committing returns the store unchanged.
-/

namespace TodoApi

/-- `models.PriorityEnum`: Low / Moderate / High. -/
inductive Priority where
  | Low
  | Moderate
  | High
deriving DecidableEq

/-- `models.StatusEnum`: "Not Started" / "In Progress" / "Completed". -/
inductive Status where
  | NotStarted
  | InProgress
  | Completed
deriving DecidableEq

/-- A row of the `task` table (`models.Task`). Column defaults
(`completed=False`, `priority=Moderate`, `status=NotStarted`,
timestamps `func.now()`) are applied in `create_task` below. -/
structure Task where
  id : Nat
  title : String
  description : Option String
  completed : Bool
  priority : Priority
  status : Status
  created_at : Nat
  updated_at : Nat
deriving DecidableEq

/-- `schemas.TaskCreate`: request body of POST /api/tasks. `priority` and
`status` are accepted by the schema (with defaults) even though
`create_task` never reads them. -/
structure TaskCreate where
  title : String
  description : Option String := none
  priority : Priority := Priority.Moderate
  status : Status := Status.NotStarted
deriving DecidableEq

/-- `schemas.TaskUpdate`: request body of PUT /api/tasks/id; every field
optional, `none` meaning "absent from the body". -/
structure TaskUpdate where
  title : Option String := none
  description : Option String := none
  completed : Option Bool := none
  priority : Option Priority := none
  status : Option Status := none
deriving DecidableEq

/-- An `HTTPException`: status code and detail string. -/
structure ApiError where
  status_code : Nat
  detail : String
deriving DecidableEq

/-- The persistent store: the rows of the single `task` table, in
insertion order. -/
structure DB where
  tasks : List Task
deriving DecidableEq

instance {ε α : Type} [DecidableEq ε] [DecidableEq α] :
    DecidableEq (Except ε α) := fun x y =>
  match x, y with
  | Except.ok a, Except.ok b =>
    if h : a = b then Decidable.isTrue (congrArg Except.ok h)
    else Decidable.isFalse (fun hc => h (Except.ok.inj hc))
  | Except.error a, Except.error b =>
    if h : a = b then Decidable.isTrue (congrArg Except.error h)
    else Decidable.isFalse (fun hc => h (Except.error.inj hc))
  | Except.ok _, Except.error _ => Decidable.isFalse (fun hc => Except.noConfusion hc)
  | Except.error _, Except.ok _ => Decidable.isFalse (fun hc => Except.noConfusion hc)

/-- Python `str.strip()` on the underlying character sequence: drop
whitespace from both ends. -/
def stripChars (cs : List Char) : List Char :=
  ((cs.dropWhile Char.isWhitespace).reverse.dropWhile Char.isWhitespace).reverse

/-- The id SQLite assigns to a fresh row of `task` (integer primary key
without AUTOINCREMENT): one more than the largest id present. -/
def DB.freshId (db : DB) : Nat :=
  db.tasks.foldl (fun m t => max m t.id) 0 + 1

/-- `main.create_task` (POST /api/tasks): reject a title that strips to
empty with 400 "Title cannot be empty"; otherwise insert a row built
from `title` and `description` only — the request's `priority` and
`status` are not passed to the `Task` constructor — with the column
defaults, and return the refreshed row. -/
def create_task (req : TaskCreate) (now : Nat) (db : DB) :
    Except ApiError Task × DB :=
  if (stripChars req.title.data).isEmpty then
    (Except.error ⟨400, "Title cannot be empty"⟩, db)
  else
    let t : Task :=
      { id := db.freshId, title := req.title, description := req.description,
        completed := false, priority := Priority.Moderate,
        status := Status.NotStarted, created_at := now, updated_at := now }
    (Except.ok t, ⟨db.tasks ++ [t]⟩)

/-- The SQL ORDER BY of `get_tasks`: `created_at` descending, ties broken
by `id` descending (`a` may precede `b` when it sorts at-or-before it). -/
def taskOrd (a b : Task) : Prop :=
  b.created_at < a.created_at ∨ (b.created_at = a.created_at ∧ b.id ≤ a.id)

instance : DecidableRel taskOrd := fun a b =>
  inferInstanceAs (Decidable (b.created_at < a.created_at ∨
    (b.created_at = a.created_at ∧ b.id ≤ a.id)))

/-- The filter pipeline of `main.get_tasks`: filter by the `completed`
query parameter when supplied, then unconditionally filter
`completed == False`. -/
def filteredTasks (completed : Option Bool) (db : DB) : List Task :=
  let base : List Task :=
    match completed with
    | some c => db.tasks.filter (fun t => t.completed == c)
    | none => db.tasks
  base.filter (fun t => t.completed == false)

/-- `main.get_tasks` (GET /api/tasks): filter, order by
`created_at DESC, id DESC`, then apply `offset(skip).limit(limit)`.
FastAPI validates `skip ≥ 0` and `1 ≤ limit ≤ 100` before the handler
runs. -/
def get_tasks (skip limit : Nat) (completed : Option Bool) (db : DB) :
    List Task :=
  ((List.insertionSort taskOrd (filteredTasks completed db)).drop skip).take limit

/-- `main.get_task` (GET /api/tasks/id): `.filter(Task.id == task_id).first()`,
404 "Task not found" when no row matches. -/
def get_task (task_id : Nat) (db : DB) : Except ApiError Task :=
  match db.tasks.find? (fun t => t.id == task_id) with
  | none => Except.error ⟨404, "Task not found"⟩
  | some t => Except.ok t

/-- Whether the session is net-dirty after the three conditional
assignments of `update_task`: SQLAlchemy's flush emits an UPDATE (and so
fires `onupdate=func.now()` on `updated_at`) only when some assigned
attribute differs from its loaded value — attribute history compares with
`==`, so assigning a value equal to the stored one is no net change, and
a flush with no net change emits no UPDATE at all. -/
def updateDirty (u : TaskUpdate) (t : Task) : Bool :=
  (match u.title with | some s => s != t.title | none => false) ||
  (match u.description with | some d => some d != t.description | none => false) ||
  (match u.completed with | some c => c != t.completed | none => false)

/-- `main.update_task` (PUT /api/tasks/id): 404 when the id has no row
(checked before anything else); then, if `title` is supplied, 400 when it
strips to empty; otherwise assign exactly the supplied ones of `title`,
`description`, `completed` (the body's `priority` and `status` are never
read) and commit — `updated_at` is refreshed by the column's `onupdate`
only when the flush actually emits an UPDATE, i.e. when some assignment
changed a value (see `updateDirty`). -/
def update_task (task_id : Nat) (u : TaskUpdate) (now : Nat) (db : DB) :
    Except ApiError Task × DB :=
  match db.tasks.find? (fun t => t.id == task_id) with
  | none => (Except.error ⟨404, "Task not found"⟩, db)
  | some t =>
    if u.title.any (fun s => (stripChars s.data).isEmpty) then
      (Except.error ⟨400, "Title cannot be empty"⟩, db)
    else
      let t' : Task :=
        { t with
          title := u.title.getD t.title,
          description := (match u.description with
            | some d => some d
            | none => t.description),
          completed := u.completed.getD t.completed,
          updated_at := if updateDirty u t then now else t.updated_at }
      (Except.ok t',
        ⟨db.tasks.map (fun x => if x.id == task_id then t' else x)⟩)

/-- `main.delete_task` (DELETE /api/tasks/id): 404 when the id has no
row; otherwise hard-delete the row and return the confirmation message. -/
def delete_task (task_id : Nat) (db : DB) : Except ApiError String × DB :=
  match db.tasks.find? (fun t => t.id == task_id) with
  | none => (Except.error ⟨404, "Task not found"⟩, db)
  | some _ =>
    (Except.ok "Task deleted successfully",
      ⟨db.tasks.filter (fun t => !(t.id == task_id))⟩)

/-- The title part of the spec's data-model invariant: the stored title
is not empty after trimming whitespace. -/
def titleOk (t : Task) : Prop := stripChars t.title.data ≠ []

/-- Store-wide invariant: every persisted row has an acceptable title. -/
def Inv (db : DB) : Prop := ∀ t ∈ db.tasks, titleOk t

instance : IsTotal Task taskOrd :=
  ⟨fun a b => by unfold taskOrd; omega⟩

instance : IsTrans Task taskOrd :=
  ⟨fun a b c hab hbc => by unfold taskOrd at *; omega⟩

/-- A sample row: the task the service creates from body `{title: "a"}`
at time 0 on an empty store. -/
def t0 : Task :=
  { id := 1, title := "a", description := none, completed := false,
    priority := Priority.Moderate, status := Status.NotStarted,
    created_at := 0, updated_at := 0 }

/-- A 256-character title (no whitespace), exceeding the declared
`String(255)` column length. -/
def longTitle : String := ⟨List.replicate 256 'a'⟩

/-- An update body supplying every field. -/
def uAll : TaskUpdate :=
  { title := some "b", description := some "d", completed := some true,
    priority := some Priority.High, status := some Status.Completed }

end TodoApi

namespace TodoApi

/-- C1 (counterexample): a Create request supplying `priority=High` and
`status=InProgress` succeeds but the returned task carries the defaults
`Moderate` / `NotStarted`, not the supplied values — the handler never
reads the body's `priority` and `status`. -/
theorem create_ignores_priority_status_cex :
    (create_task
      { title := "a", priority := Priority.High, status := Status.InProgress }
      0 ⟨[]⟩).1 = Except.ok t0 ∧
    t0.priority ≠ Priority.High ∧ t0.status ≠ Status.InProgress := by
  decide

/-- C1 (amended): a Create request with a non-empty (after trimming)
title succeeds; the returned and persisted task echoes `title` and
`description`, has the server-assigned fresh id, `completed = false`,
`created_at = updated_at = now`, and always the defaults
`priority = Moderate`, `status = NotStarted`, the supplied `priority`
and `status` being ignored. -/
theorem create_ok_defaults (req : TaskCreate) (now : Nat) (db : DB)
    (h : stripChars req.title.data ≠ []) :
    create_task req now db =
      (Except.ok
        { id := db.freshId, title := req.title, description := req.description,
          completed := false, priority := Priority.Moderate,
          status := Status.NotStarted, created_at := now, updated_at := now },
       ⟨db.tasks ++
        [{ id := db.freshId, title := req.title, description := req.description,
           completed := false, priority := Priority.Moderate,
           status := Status.NotStarted, created_at := now, updated_at := now }]⟩) := by
  simp [create_task, h]

/-- C1 (witness): instantiating `create_ok_defaults` on body
`{title: "a", priority: High, status: InProgress}` over the empty store. -/
theorem create_ok_defaults_witness :
    stripChars ("a".data) ≠ [] ∧
    create_task
      { title := "a", priority := Priority.High, status := Status.InProgress }
      0 ⟨[]⟩ = (Except.ok t0, ⟨[t0]⟩) :=
  ⟨by decide, by
    rw [create_ok_defaults
      { title := "a", priority := Priority.High, status := Status.InProgress }
      0 ⟨[]⟩ (by decide)]
    rfl⟩

/-- C2 (counterexample): updating an existing task with body
`{priority: High}` succeeds but returns and persists the task unchanged,
`priority` still `Moderate` — the handler never reads the body's
`priority` (or `status`). -/
theorem update_ignores_priority_cex :
    update_task 1 { priority := some Priority.High } 5 ⟨[t0]⟩ =
      (Except.ok t0, ⟨[t0]⟩) ∧
    t0.priority ≠ Priority.High := by
  decide

/-- C2 (amended): on an existing id, each of `title`, `description`,
`completed` explicitly supplied in the body takes the supplied value in
the returned and persisted task; absent fields keep their previous
value; `priority` and `status` keep their previous value even when
supplied (the handler ignores them); `id` and `created_at` are
untouched. -/
theorem update_applies_supplied_fields (task_id : Nat) (u : TaskUpdate)
    (now : Nat) (db : DB) (t : Task)
    (hfind : db.tasks.find? (fun x => x.id == task_id) = some t)
    (htitle : ∀ s, u.title = some s → stripChars s.data ≠ []) :
    ∃ t', update_task task_id u now db =
        (Except.ok t',
         ⟨db.tasks.map (fun x => if x.id == task_id then t' else x)⟩) ∧
      t'.title = u.title.getD t.title ∧
      t'.description = (match u.description with
        | some d => some d
        | none => t.description) ∧
      t'.completed = u.completed.getD t.completed ∧
      t'.priority = t.priority ∧ t'.status = t.status ∧
      t'.id = t.id ∧ t'.created_at = t.created_at := by
  have hguard : u.title.any (fun s => (stripChars s.data).isEmpty) = false := by
    cases hu : u.title with
    | none => rfl
    | some s =>
      simpa [Option.any] using htitle s hu
  refine ⟨{ t with
      title := u.title.getD t.title,
      description := (match u.description with
        | some d => some d
        | none => t.description),
      completed := u.completed.getD t.completed,
      updated_at := if updateDirty u t then now else t.updated_at },
    ?_, rfl, rfl, rfl, rfl, rfl, rfl, rfl⟩
  simp [update_task, hfind, hguard]

/-- C2 (witness): instantiating `update_applies_supplied_fields` with a
body supplying all five fields on a store holding `t0`. -/
theorem update_applies_supplied_fields_witness :
    (⟨[t0]⟩ : DB).tasks.find? (fun x => x.id == 1) = some t0 ∧
    (∃ t', update_task 1 uAll 7 ⟨[t0]⟩ =
        (Except.ok t',
         ⟨([t0] : List Task).map (fun x => if x.id == 1 then t' else x)⟩) ∧
      t'.title = uAll.title.getD t0.title ∧
      t'.description = (match uAll.description with
        | some d => some d
        | none => t0.description) ∧
      t'.completed = uAll.completed.getD t0.completed ∧
      t'.priority = t0.priority ∧ t'.status = t0.status ∧
      t'.id = t0.id ∧ t'.created_at = t0.created_at) :=
  ⟨by decide,
   update_applies_supplied_fields 1 uAll 7 ⟨[t0]⟩ t0 (by decide)
    (by
      intro s hs
      have h : some "b" = some s := hs
      injection h with h
      subst h
      decide)⟩


/-- C3: every task returned by List has `completed = false`, whatever the
`completed` query parameter (the handler re-applies the fixed
`completed == False` filter unconditionally). -/
theorem list_tasks_all_incomplete (skip limit : Nat) (c : Option Bool)
    (db : DB) (t : Task) (ht : t ∈ get_tasks skip limit c db) :
    t.completed = false := by
  have h1 : t ∈ List.insertionSort taskOrd (filteredTasks c db) :=
    List.mem_of_mem_drop (List.mem_of_mem_take ht)
  have h2 : t ∈ filteredTasks c db :=
    (List.perm_insertionSort taskOrd (filteredTasks c db)).mem_iff.mp h1
  have h3 : (fun x : Task => x.completed == false) t = true := by
    simp only [filteredTasks] at h2
    exact (List.mem_filter.mp h2).2
  simpa using h3

/-- C3 (witness): instantiating `list_tasks_all_incomplete` on a store
holding the single incomplete task `t0`, queried with the defaults. -/
theorem list_tasks_all_incomplete_witness :
    t0 ∈ get_tasks 0 5 none ⟨[t0]⟩ ∧ t0.completed = false :=
  ⟨by decide, list_tasks_all_incomplete 0 5 none ⟨[t0]⟩ t0 (by decide)⟩

/-- C4 (counterexample): an update with an empty body on an existing id
succeeds but does not refresh `updated_at`: no attribute is assigned, so
the session has no net change, the flush emits no UPDATE and the
`onupdate` hook never fires — `updated_at` stays 0 although the update
ran at time 5. -/
theorem empty_body_update_keeps_updated_at_cex :
    update_task 1 {} 5 ⟨[t0]⟩ = (Except.ok t0, ⟨[t0]⟩) ∧
    t0.updated_at = 0 ∧ (0 : Nat) ≠ 5 := by
  decide

/-- C4 (amended): on a successful update, `updated_at` is refreshed to
the current time exactly when some supplied field (`title`,
`description` or `completed`) differs from the stored value
(`updateDirty`); an update supplying no net change — an empty body, a
body repeating the current values, or a body supplying only the ignored
`priority`/`status` — succeeds but leaves `updated_at` unchanged. -/
theorem update_refreshes_updated_at_iff_dirty (task_id : Nat)
    (u : TaskUpdate) (now : Nat) (db : DB) (t : Task)
    (hfind : db.tasks.find? (fun x => x.id == task_id) = some t)
    (htitle : ∀ s, u.title = some s → stripChars s.data ≠ []) :
    ∃ t', (update_task task_id u now db).1 = Except.ok t' ∧
      t'.updated_at = (if updateDirty u t then now else t.updated_at) := by
  have hguard : u.title.any (fun s => (stripChars s.data).isEmpty) = false := by
    cases hu : u.title with
    | none => rfl
    | some s =>
      simpa [Option.any] using htitle s hu
  refine ⟨{ t with
      title := u.title.getD t.title,
      description := (match u.description with
        | some d => some d
        | none => t.description),
      completed := u.completed.getD t.completed,
      updated_at := if updateDirty u t then now else t.updated_at },
    ?_, rfl⟩
  simp [update_task, hfind, hguard]

/-- C4 (witness): instantiating `update_refreshes_updated_at_iff_dirty`
on a store holding `t0` with a body changing the title at time 5. -/
theorem update_refreshes_updated_at_iff_dirty_witness :
    (⟨[t0]⟩ : DB).tasks.find? (fun x => x.id == 1) = some t0 ∧
    (∃ t', (update_task 1 { title := some "b" } 5 ⟨[t0]⟩).1 = Except.ok t' ∧
      t'.updated_at =
        (if updateDirty { title := some "b" } t0 then 5 else t0.updated_at)) :=
  ⟨by decide,
   update_refreshes_updated_at_iff_dirty 1 { title := some "b" } 5 ⟨[t0]⟩ t0
    (by decide)
    (by
      intro s hs
      have h : some "b" = some s := hs
      injection h with h
      subst h
      decide)⟩

/-- C5: the List result is exactly the `skip`/`limit` window of the
filtered sequence ordered by `created_at` descending with ties broken by
`id` descending; in particular it has at most `limit` elements and is
itself sorted in that order. -/
theorem list_window_sorted (skip limit : Nat) (c : Option Bool) (db : DB) :
    get_tasks skip limit c db =
      ((List.insertionSort taskOrd (filteredTasks c db)).drop skip).take limit ∧
    (get_tasks skip limit c db).length ≤ limit ∧
    List.Sorted taskOrd (get_tasks skip limit c db) := by
  refine ⟨rfl, ?_, ?_⟩
  · exact List.length_take_le limit
      ((List.insertionSort taskOrd (filteredTasks c db)).drop skip)
  · have hs : List.Sorted taskOrd
        (List.insertionSort taskOrd (filteredTasks c db)) :=
      List.sorted_insertionSort taskOrd (filteredTasks c db)
    exact hs.sublist ((List.take_sublist _ _).trans (List.drop_sublist _ _))


set_option maxRecDepth 8000 in
/-- C6 (counterexample): a Create with a 256-character title (exceeding
the 255-character bound the spec states) succeeds, and the persisted and
returned title still has 256 characters after trimming — no length check
exists in the handlers and SQLite does not enforce `String(255)`. -/
theorem long_title_accepted_cex :
    ((create_task { title := longTitle } 0 ⟨[]⟩).1.map
      (fun t => (stripChars t.title.data).length)) = Except.ok 256 ∧
    ((create_task { title := longTitle } 0 ⟨[]⟩).2.tasks.map
      (fun t => (stripChars t.title.data).length)) = [256] ∧
    ¬(256 ≤ 255) := by
  constructor
  · decide
  constructor
  · decide
  · decide

/-- C6 (amended): the part of the invariant the code does enforce —
every task persisted by Create, Update or Delete from a store satisfying
it has a title that is non-empty after trimming whitespace; the
255-character bound is not enforced. -/
theorem title_nonempty_invariant (req : TaskCreate) (u : TaskUpdate)
    (id1 id2 now1 now2 : Nat) (db : DB) (hdb : Inv db) :
    Inv (create_task req now1 db).2 ∧ Inv (update_task id1 u now2 db).2 ∧
    Inv (delete_task id2 db).2 := by
  refine ⟨?_, ?_, ?_⟩
  · unfold create_task
    cases h : (stripChars req.title.data).isEmpty with
    | true => simpa using hdb
    | false =>
      simp only []
      intro x hx
      rcases List.mem_append.mp hx with hx | hx
      · exact hdb x hx
      · rcases List.mem_singleton.mp hx with rfl
        simpa [titleOk] using h
  · unfold update_task
    cases hf : db.tasks.find? (fun t => t.id == id1) with
    | none => simpa using hdb
    | some t =>
      cases hg : u.title.any (fun s => (stripChars s.data).isEmpty) with
      | true => simpa using hdb
      | false =>
        simp only []
        intro x hx
        rcases List.mem_map.mp hx with ⟨a, ha, hax⟩
        by_cases hid : a.id == id1
        · rw [if_pos hid] at hax
          subst hax
          show stripChars (u.title.getD t.title).data ≠ []
          cases hu : u.title with
          | none =>
            simpa [titleOk] using hdb t (List.mem_of_find?_eq_some hf)
          | some s =>
            rw [hu] at hg
            simpa [Option.any] using hg
        · rw [if_neg hid] at hax
          subst hax
          exact hdb a ha
  · unfold delete_task
    cases hf : db.tasks.find? (fun t => t.id == id2) with
    | none => simpa using hdb
    | some t =>
      intro x hx
      exact hdb x (List.mem_of_mem_filter hx)

/-- C6 (witness): instantiating `title_nonempty_invariant` on a store
holding `t0`, with a create body, an all-fields update body, and two
concrete ids. -/
theorem title_nonempty_invariant_witness :
    Inv ⟨[t0]⟩ ∧
    (Inv (create_task { title := "c" } 2 ⟨[t0]⟩).2 ∧
     Inv (update_task 1 uAll 3 ⟨[t0]⟩).2 ∧
     Inv (delete_task 1 ⟨[t0]⟩).2) :=
  have hdb : Inv ⟨[t0]⟩ := by
    intro t ht
    rcases List.mem_singleton.mp ht with rfl
    exact (by decide : stripChars t0.title.data ≠ [])
  ⟨hdb, title_nonempty_invariant { title := "c" } uAll 1 1 2 3 ⟨[t0]⟩ hdb⟩

/-- C7: Create fails — with precisely HTTP 400 and detail
"Title cannot be empty" — if and only if the supplied title strips to
empty, and in that case the store is unchanged. -/
theorem create_empty_title_iff (req : TaskCreate) (now : Nat) (db : DB) :
    ((create_task req now db).1 =
        Except.error ⟨400, "Title cannot be empty"⟩ ↔
      stripChars req.title.data = []) ∧
    (stripChars req.title.data = [] →
      create_task req now db =
        (Except.error ⟨400, "Title cannot be empty"⟩, db)) := by
  unfold create_task
  cases h : (stripChars req.title.data).isEmpty with
  | true => simp_all
  | false => simp_all

/-- C7 (witness): instantiating `create_empty_title_iff` on the
whitespace-only title "   " over the empty store. -/
theorem create_empty_title_iff_witness :
    stripChars (String.data "   ") = [] ∧
    create_task { title := "   " } 0 ⟨[]⟩ =
      (Except.error ⟨400, "Title cannot be empty"⟩, ⟨[]⟩) :=
  ⟨by decide, (create_empty_title_iff { title := "   " } 0 ⟨[]⟩).2 (by decide)⟩

/-- C8: when no row has the requested id, Get, Update and Delete all
fail with 404 "Task not found" and leave the store unchanged — for
Update this holds whatever the body contains, the existence check coming
before title validation. -/
theorem missing_id_yields_404 (task_id : Nat) (u : TaskUpdate) (now : Nat)
    (db : DB) (h : ∀ t ∈ db.tasks, t.id ≠ task_id) :
    get_task task_id db = Except.error ⟨404, "Task not found"⟩ ∧
    update_task task_id u now db =
      (Except.error ⟨404, "Task not found"⟩, db) ∧
    delete_task task_id db = (Except.error ⟨404, "Task not found"⟩, db) := by
  have hf : db.tasks.find? (fun t => t.id == task_id) = none := by
    rw [List.find?_eq_none]
    intro x hx
    simpa using h x hx
  refine ⟨?_, ?_, ?_⟩ <;> simp [get_task, update_task, delete_task, hf]

/-- C8 (witness): instantiating `missing_id_yields_404` at id 5 on a
store holding only id 1, with an update body carrying an invalid empty
title (the 404 still wins). -/
theorem missing_id_yields_404_witness :
    (∀ t ∈ (⟨[t0]⟩ : DB).tasks, t.id ≠ 5) ∧
    (get_task 5 ⟨[t0]⟩ = Except.error ⟨404, "Task not found"⟩ ∧
     update_task 5 { title := some "" } 9 ⟨[t0]⟩ =
       (Except.error ⟨404, "Task not found"⟩, ⟨[t0]⟩) ∧
     delete_task 5 ⟨[t0]⟩ = (Except.error ⟨404, "Task not found"⟩, ⟨[t0]⟩)) :=
  ⟨by decide,
   missing_id_yields_404 5 { title := some "" } 9 ⟨[t0]⟩ (by decide)⟩

/-- C9: Update is atomic on error — whenever it returns an error (404 on
a missing id, or 400 on an empty trimmed title), the store it returns is
exactly the store it was given. -/
theorem update_error_preserves_store (task_id : Nat) (u : TaskUpdate)
    (now : Nat) (db : DB) (e : ApiError)
    (h : (update_task task_id u now db).1 = Except.error e) :
    (update_task task_id u now db).2 = db := by
  unfold update_task at h ⊢
  cases hf : db.tasks.find? (fun t => t.id == task_id) with
  | none => simp [hf]
  | some t =>
    cases hg : u.title.any (fun s => (stripChars s.data).isEmpty) with
    | true => simp [hg]
    | false =>
      rw [hf] at h
      simp [hg] at h


/-- C9 (witness): instantiating `update_error_preserves_store` on the
404 case — updating id 1 on the empty store. -/
theorem update_error_preserves_store_witness :
    (update_task 1 {} 0 ⟨[]⟩).1 = Except.error ⟨404, "Task not found"⟩ ∧
    (update_task 1 {} 0 ⟨[]⟩).2 = ⟨[]⟩ :=
  ⟨by decide,
   update_error_preserves_store 1 {} 0 ⟨[]⟩ ⟨404, "Task not found"⟩
    (by decide)⟩

/-- C10: Create persists the title verbatim — for every accepted title,
the returned and stored title is the supplied string character for
character, leading/trailing whitespace included (`strip()` is used only
for the validation test, never on the stored value). -/
theorem create_title_verbatim (req : TaskCreate) (now : Nat) (db : DB)
    (h : stripChars req.title.data ≠ []) :
    ∃ t, create_task req now db = (Except.ok t, ⟨db.tasks ++ [t]⟩) ∧
      t.title = req.title := by
  refine ⟨{
      id := db.freshId, title := req.title,
      description := req.description, completed := false,
      priority := Priority.Moderate, status := Status.NotStarted,
      created_at := now, updated_at := now }, ?_, rfl⟩
  simp [create_task, h]

/-- C10 (witness): instantiating `create_title_verbatim` on the title
"  hi  ", which carries leading and trailing whitespace. -/
theorem create_title_verbatim_witness :
    stripChars (String.data "  hi  ") ≠ [] ∧
    (∃ t, create_task { title := "  hi  " } 3 ⟨[]⟩ =
        (Except.ok t, ⟨([] : List Task) ++ [t]⟩) ∧
      t.title = "  hi  ") :=
  ⟨by decide, create_title_verbatim { title := "  hi  " } 3 ⟨[]⟩ (by decide)⟩

end TodoApi
